import Mathlib

/-!
Shallow embedding of the retrieval-and-insight engine of the
AI-Resume-Summarizer-Career-Navigator repository.

Sources embedded here:
  - src/src/rag_engine.py   (class RAGEngine)
  - src/src/career_analytics.py (CareerAnalytics._extract_skills)

Python strings are modelled as Lean String, machine floats reported as
distances by the vector index are modelled as Rat, fallible calls as
Except, and the external services (chroma collection, Groq client) as
explicit function parameters.
-/

/-- Python str.strip on a list of characters: drop leading and trailing
whitespace. -/
def pyStrip (t : List Char) : List Char :=
  ((t.dropWhile Char.isWhitespace).reverse.dropWhile Char.isWhitespace).reverse

/-- Python str.strip on a String. -/
def pyStripStr (s : String) : String :=
  String.mk (pyStrip s.data)

/-- Python truthiness of an optional string: `x or d` returns d when x is
None or the empty string, else x.  Models the `user_query or ""` idiom. -/
def pyOr (o : Option String) (d : String) : String :=
  match o with
  | none => d
  | some s => if s = "" then d else s

/- ===== career_analytics.py : CareerAnalytics._extract_skills ===== -/

/-- Separator characters of the regex character class in
re.split applied with pattern [|,;]+ in _extract_skills. -/
def isSep (c : Char) : Bool := c == '|' || c == ',' || c == ';'

/-- Model of re.split with pattern [|,;]+ : a maximal run of one or more
separator characters is a single delimiter; empty segments appear at the
ends when the string starts or ends with a separator. -/
def splitRuns : List Char → List (List Char)
  | [] => [[]]
  | [c] => if isSep c then [[], []] else [[c]]
  | c :: d :: rest =>
    if isSep c then
      if isSep d then splitRuns (d :: rest)
      else [] :: splitRuns (d :: rest)
    else
      match splitRuns (d :: rest) with
      | [] => [[c]]
      | t :: ts => (c :: t) :: ts

/-- Splitting on every single separator character (the plain reading of
"splits on the separators", used as the specification-side definition). -/
def splitSingle : List Char → List (List Char)
  | [] => [[]]
  | c :: rest =>
    if isSep c then [] :: splitSingle rest
    else
      match splitSingle rest with
      | [] => [[c]]
      | t :: ts => (c :: t) :: ts

/-- Filter of the list comprehension: keep a token iff it is nonempty
after stripping (Python `if skill.strip()`). -/
def keepTok (t : List Char) : Bool := !(pyStrip t).isEmpty

/-- Map of the list comprehension: `skill.strip().lower()`. -/
def cleanTok (t : List Char) : String :=
  String.mk ((pyStrip t).map Char.toLower)

/-- CareerAnalytics._extract_skills: None (NaN) gives []; otherwise
re.split on [|,;]+ then `[skill.strip().lower() for skill in skills if
skill.strip()]`. -/
def extract_skills (skills_str : Option String) : List String :=
  match skills_str with
  | none => []
  | some s => ((splitRuns s.data).filter keepTok).map cleanTok

/-- Specification-side reading of the skills helper: split on each
occurrence of the separators, trim, lower-case, drop empty tokens,
keeping order. -/
def extract_skills_spec (skills_str : Option String) : List String :=
  match skills_str with
  | none => []
  | some s => ((splitSingle s.data).filter keepTok).map cleanTok

/- ===== rag_engine.py : dataset loader ===== -/

/-- One tabular row of a job-postings source; the seven columns that
RAGEngine reads (absent value = column missing or NaN) plus the
source_file tag added by the loader. -/
structure Row where
  job_title : Option String
  key_skills : Option String
  experience : Option String
  role_category : Option String
  functional_area : Option String
  industry : Option String
  salary : Option String
  source_file : Option String
deriving DecidableEq, Repr

/-- Outcome of attempting pd.read_csv on a source with one encoding. -/
inductive ReadOutcome where
  | ok (rows : List Row)
  | unicodeErr
  | otherErr
deriving DecidableEq, Repr

/-- A configured data source: its path and what reading it with each of
the two encodings would yield. -/
structure Source where
  path : String
  utf8Read : ReadOutcome
  latin1Read : ReadOutcome
deriving DecidableEq, Repr

/-- Python str.endswith over the underlying character sequences. -/
def endsWithPy (s suffix : String) : Bool :=
  suffix.data.isSuffixOf s.data

/-- The loader tags every row of a loaded source with the path of the
source (df with source_file column set to file_path). -/
def tagSource (path : String) (r : Row) : Row :=
  { r with source_file := some path }

/-- A row with every field absent, used in concrete instances. -/
def emptyRow : Row :=
  { job_title := none, key_skills := none, experience := none, role_category := none,
    functional_area := none, industry := none, salary := none, source_file := none }

/-- Effect of one iteration of the loader loop of _load_multiple_files on
one source: some rows when the source is appended to the dataframe list,
none when it is skipped (non-csv path, or an unhandled read error caught
by the outer except). A UnicodeDecodeError from the utf-8 read falls back
to the latin-1 read. -/
def loadOne (s : Source) : Option (List Row) :=
  if endsWithPy s.path ".csv" then
    match s.utf8Read with
    | .ok rows => some (rows.map (tagSource s.path))
    | .unicodeErr =>
      match s.latin1Read with
      | .ok rows => some (rows.map (tagSource s.path))
      | _ => none
    | .otherErr => none
  else none

/-- RAGEngine._load_multiple_files: load every source, raise ValueError
when no dataframe was collected, else concatenate in order. -/
def load_multiple_files (sources : List Source) : Except String (List Row) :=
  let dataframes := sources.filterMap loadOne
  if dataframes.isEmpty then Except.error "No valid CSV files could be loaded"
  else Except.ok dataframes.flatten

/- ===== rag_engine.py : vector store ===== -/

/-- Metadata stored per job in the collection and returned by queries
(the dict built in _create_vector_store, every field via str(...) with
default N/A). -/
structure JobMetadata where
  job_title : String
  skills : String
  experience : String
  role_category : String
  industry : String
  salary : String
deriving DecidableEq, Repr

/-- One entry of the chroma collection: id, document text, metadata. -/
structure IndexEntry where
  id : String
  document : String
  metadata : JobMetadata
deriving DecidableEq, Repr

/-- Document text built in _create_vector_store: multi-line f-string over
the row fields, stripped of outer whitespace. -/
def rowDocText (r : Row) : String :=
  pyStripStr ("\n                Job Title: " ++ r.job_title.getD "N/A"
    ++ "\n                Key Skills: " ++ r.key_skills.getD "N/A"
    ++ "\n                Experience Required: " ++ r.experience.getD "N/A"
    ++ "\n                Role Category: " ++ r.role_category.getD "N/A"
    ++ "\n                Functional Area: " ++ r.functional_area.getD "N/A"
    ++ "\n                Industry: " ++ r.industry.getD "N/A"
    ++ "\n                Salary: " ++ r.salary.getD "N/A"
    ++ "\n                ")

/-- Metadata dict built in _create_vector_store for one row. -/
def rowMetadata (r : Row) : JobMetadata :=
  { job_title := r.job_title.getD "N/A"
    skills := r.key_skills.getD "N/A"
    experience := r.experience.getD "N/A"
    role_category := r.role_category.getD "N/A"
    industry := r.industry.getD "N/A"
    salary := r.salary.getD "N/A" }

/-- Net content of the collection after the batched add loop of
_create_vector_store: one entry per row in order, id = job_ followed by
the global row index (iterrows over the ignore_index concatenation).
Batching in chunks of 100 does not change the final contents. -/
def buildEntries (rows : List Row) : List IndexEntry :=
  rows.enum.map fun p =>
    { id := "job_" ++ toString p.1, document := rowDocText p.2, metadata := rowMetadata p.2 }

/-- A named chroma collection. -/
structure NamedCollection where
  name : String
  entries : List IndexEntry
deriving DecidableEq, Repr

/-- State of the persistent chroma client: its collections. -/
structure StoreState where
  collections : List NamedCollection
deriving DecidableEq, Repr

/-- Model of client.get_collection succeeding: a collection of that name
exists. -/
def hasCollection (st : StoreState) (name : String) : Bool :=
  st.collections.any fun c => c.name == name

/-- RAGEngine._create_vector_store: load the sources (this happens before
create_collection, so a loader error leaves the store unchanged), then
create the job_database collection and add every row. Second component is
the raised exception message, if any. -/
def create_vector_store (st : StoreState) (sources : List Source) :
    StoreState × Option String :=
  match load_multiple_files sources with
  | Except.error e => (st, some e)
  | Except.ok rows =>
    ({ collections := st.collections ++ [{ name := "job_database", entries := buildEntries rows }] },
      none)

/-- Model of RAGEngine._initialize_vector_store: try get_collection
(reuse when the collection exists), on failure create the store. -/
def init_vector_store (st : StoreState) (sources : List Source) :
    StoreState × Option String :=
  if hasCollection st "job_database" then (st, none)
  else create_vector_store st sources

/- ===== rag_engine.py : search_relevant_jobs ===== -/

/-- Response of collection.query for one query text: parallel lists
metadatas[0] and distances[0]. -/
structure QueryResponse where
  metadatas : List JobMetadata
  distances : List Rat
deriving DecidableEq, Repr

/-- One element of the list returned by search_relevant_jobs. -/
structure RelevantJob where
  job_title : String
  skills : String
  experience : String
  role_category : String
  industry : String
  salary : String
  relevance_score : Rat
deriving DecidableEq, Repr

/-- The dict appended per neighbor: metadata fields plus
relevance_score = 1 - distance. -/
def mkRelevantJob (p : JobMetadata × Rat) : RelevantJob :=
  { job_title := p.1.job_title
    skills := p.1.skills
    experience := p.1.experience
    role_category := p.1.role_category
    industry := p.1.industry
    salary := p.1.salary
    relevance_score := 1 - p.2 }

/-- RAGEngine.search_relevant_jobs: issue the collection query with the
query string exactly as given, then pair metadatas with distances in
order (the source enumerates metadatas[0] and indexes distances[0][i];
chroma returns the two lists with equal length). -/
def search_relevant_jobs (queryFn : String → Nat → QueryResponse)
    (query : String) (n_results : Nat := 10) : List RelevantJob :=
  let results := queryFn query n_results
  (results.metadatas.zip results.distances).map mkRelevantJob

/- ===== rag_engine.py : generation client and insight composer ===== -/

/-- The Groq chat-completion call for one user-role prompt: the response
text, or the raised service error. -/
def GenService := String → Except String String

/-- A Python exception escaping from an entry point of RAGEngine. -/
inductive PyErr where
  | attributeError
  | genError (msg : String)
deriving DecidableEq, Repr

/-- Constructor step of RAGEngine.__init__ configuring the Groq client:
with an api key the client is built, without one it is set to None and
construction still succeeds. -/
def init_client_groq (mkClient : String → GenService) (api_key : Option String) :
    Option GenService :=
  match api_key with
  | some key => some (mkClient key)
  | none => none

/-- Return value of get_career_insights. -/
structure InsightsResult where
  insights : String
  relevant_jobs : List RelevantJob
  skills_analysis : String
deriving Repr

/-- The skills-extraction prompt of get_career_insights, over the first
2000 characters of the resume. -/
def skills_prompt_of (resume_text : String) : String :=
  "\n        Extract the key skills, technologies, and experience level from this resume.\n        Return as a structured summary:\n        \n        Resume: "
    ++ resume_text.take 2000
    ++ "...\n        \n        Format:\n        Skills: [list of skills]\n        Experience Level: [junior/mid/senior]\n        Domain: [primary domain/field]\n        "

/-- One line of the jobs context block of get_career_insights. -/
def jobLine (job : RelevantJob) : String :=
  "Job: " ++ job.job_title ++ " | Skills: " ++ job.skills
    ++ " | Experience: " ++ job.experience ++ " | Industry: " ++ job.industry

/-- The insights prompt of get_career_insights. -/
def insights_prompt_of (skills_analysis jobs_context : String)
    (user_query : Option String) : String :=
  "\n        Based on the resume analysis and current job market data, provide comprehensive career insights:\n        \n        Resume Analysis: "
    ++ skills_analysis
    ++ "\n        \n        Relevant Job Market Data:\n        " ++ jobs_context
    ++ "\n        \n        User Query: " ++ pyOr user_query "General career guidance"
    ++ "\n        \n        Provide insights on:\n        1. Career progression opportunities\n        2. Skill gaps and recommendations\n        3. Salary expectations\n        4. Industry trends\n        5. Next career steps\n        \n        Be specific and actionable.\n        "

/-- RAGEngine.get_career_insights: first generation call (skills
analysis), retrieval of 15 jobs, jobs context from the top 10, second
generation call (insights). The source wraps none of this in try/except:
a None client raises AttributeError at the first call, and a failing
generation call raises out of the function. -/
def get_career_insights (client_groq : Option GenService)
    (queryFn : String → Nat → QueryResponse)
    (resume_text : String) (user_query : Option String := none) :
    Except PyErr InsightsResult :=
  match client_groq with
  | none => Except.error PyErr.attributeError
  | some gen =>
    match gen (skills_prompt_of resume_text) with
    | Except.error e => Except.error (PyErr.genError e)
    | Except.ok content1 =>
      let skills_analysis := pyStripStr content1
      let search_query := skills_analysis ++ " " ++ pyOr user_query ""
      let relevant_jobs := search_relevant_jobs queryFn search_query 15
      let jobs_context := String.intercalate "\n" ((relevant_jobs.take 10).map jobLine)
      match gen (insights_prompt_of skills_analysis jobs_context user_query) with
      | Except.error e => Except.error (PyErr.genError e)
      | Except.ok content2 =>
        Except.ok { insights := pyStripStr content2
                    relevant_jobs := relevant_jobs
                    skills_analysis := skills_analysis }

/- ===== rag_engine.py : chat_with_career_advisor ===== -/

/-- One entry of chat_history: a dict with role and content. -/
structure ChatMsg where
  role : String
  content : String
deriving DecidableEq, Repr

/-- Python slice l[-n:] for n > 0: the last n elements (all of them when
the list is shorter). -/
def takeLast (n : Nat) (l : List α) : List α := l.drop (l.length - n)

/-- Conversation transcript of chat_with_career_advisor: the last 5
entries of chat_history, one line per entry. -/
def conversation_of (chat_history : List ChatMsg) : String :=
  String.intercalate "\n" ((takeLast 5 chat_history).map fun msg =>
    (if msg.role = "user" then "User" else "Assistant") ++ ": " ++ msg.content)

/-- The chat prompt of chat_with_career_advisor. -/
def chat_prompt_of (skills_summary jobs_block conversation user_message : String) : String :=
  "\n        You are an expert career advisor with access to current job market data. \n        \n        Resume Summary: "
    ++ skills_summary
    ++ "\n        \n        Recent Job Market Insights:\n        " ++ jobs_block
    ++ "\n        \n        Conversation History:\n        " ++ conversation
    ++ "\n        \n        User Question: " ++ user_message
    ++ "\n        \n        Provide helpful, specific career advice based on the resume and current job market. \n        Be conversational and supportive.\n        "

/-- RAGEngine.chat_with_career_advisor: recompute career data via
get_career_insights (its exceptions propagate), build the bounded
transcript and the job bullet block, then issue the chat generation
call. -/
def chat_with_career_advisor (client_groq : Option GenService)
    (queryFn : String → Nat → QueryResponse)
    (resume_text : String) (chat_history : List ChatMsg) (user_message : String) :
    Except PyErr String :=
  match get_career_insights client_groq queryFn resume_text (some user_message) with
  | Except.error e => Except.error e
  | Except.ok career_data =>
    match client_groq with
    | none => Except.error PyErr.attributeError
    | some gen =>
      let conversation := conversation_of chat_history
      let jobs_block := String.intercalate "\n"
        ((career_data.relevant_jobs.take 5).map fun job =>
          "â€¢ " ++ job.job_title ++ " - " ++ job.skills.take 100)
      let prompt := chat_prompt_of (career_data.skills_analysis.take 500)
        jobs_block conversation user_message
      match gen prompt with
      | Except.error e => Except.error (PyErr.genError e)
      | Except.ok content => Except.ok (pyStripStr content)

/- ===== helper lemmas ===== -/

theorem keepTok_nil : keepTok [] = false := rfl

theorem splitSingle_cons (c : Char) (l : List Char) :
    splitSingle (c :: l) =
      if isSep c then [] :: splitSingle l
      else
        match splitSingle l with
        | [] => [[c]]
        | t :: ts => (c :: t) :: ts := by
  cases hc : isSep c <;> simp only [splitSingle, hc]

theorem splitRuns_decomp (l : List Char) :
    ∃ R S, splitRuns l = (l.takeWhile fun c => !isSep c) :: R ∧
      splitSingle l = (l.takeWhile fun c => !isSep c) :: S ∧
      R.filter keepTok = S.filter keepTok := by
  induction l using splitRuns.induct with
  | case1 =>
    exact ⟨[], [], by simp [splitRuns], by simp [splitSingle], rfl⟩
  | case2 c hc =>
    refine ⟨[[]], [[]], ?_, ?_, rfl⟩
    · simp [splitRuns, hc, List.takeWhile_cons]
    · simp [splitSingle, hc, List.takeWhile_cons]
  | case3 c hc =>
    refine ⟨[], [], ?_, ?_, rfl⟩
    · simp [splitRuns, hc, List.takeWhile_cons]
    · simp [splitSingle, hc, List.takeWhile_cons]
  | case4 c d rest hc hd ih =>
    obtain ⟨R, S, h1, h2, h3⟩ := ih
    refine ⟨R, [] :: S, ?_, ?_, ?_⟩
    · rw [show splitRuns (c :: d :: rest) = splitRuns (d :: rest) by
        simp [splitRuns, hc, hd]]
      rw [h1]
      simp [List.takeWhile_cons, hc, hd]
    · rw [show splitSingle (c :: d :: rest) = [] :: splitSingle (d :: rest) by
        simp [splitSingle, hc]]
      rw [h2]
      simp [List.takeWhile_cons, hc, hd]
    · rw [h3]
      simp [List.filter, keepTok_nil]
  | case5 c d rest hc hd ih =>
    obtain ⟨R, S, h1, h2, h3⟩ := ih
    refine ⟨splitRuns (d :: rest), splitSingle (d :: rest), ?_, ?_, ?_⟩
    · rw [show splitRuns (c :: d :: rest) = [] :: splitRuns (d :: rest) by
        simp [splitRuns, hc, hd]]
      simp [List.takeWhile_cons, hc]
    · rw [show splitSingle (c :: d :: rest) = [] :: splitSingle (d :: rest) by
        simp [splitSingle, hc]]
      simp [List.takeWhile_cons, hc]
    · rw [h1, h2, List.filter_cons, List.filter_cons, h3]
  | case6 c d rest hc heq ih =>
    obtain ⟨R, S, h1, h2, h3⟩ := ih
    rw [heq] at h1
    exact absurd h1 (by simp)
  | case7 c d rest hc t ts heq ih =>
    obtain ⟨R, S, h1, h2, h3⟩ := ih
    rw [h1] at heq
    injection heq with e1 e2
    subst e1; subst e2
    refine ⟨R, S, ?_, ?_, h3⟩
    · rw [show splitRuns (c :: d :: rest) =
          (c :: List.takeWhile (fun c => !isSep c) (d :: rest)) :: R by
        simp [splitRuns, hc, h1]]
      simp [List.takeWhile_cons, hc]
    · rw [splitSingle_cons, h2]
      simp [List.takeWhile_cons, hc]

theorem splitRuns_filter_eq_splitSingle_filter (l : List Char) :
    (splitRuns l).filter keepTok = (splitSingle l).filter keepTok := by
  obtain ⟨R, S, h1, h2, h3⟩ := splitRuns_decomp l
  rw [h1, h2, List.filter_cons, List.filter_cons, h3]

theorem zip_map_getElem? {α β γ : Type} (f : α × β → γ) :
    ∀ (ms : List α) (ds : List β) (i : Nat) (x : γ),
      ((ms.zip ds).map f)[i]? = some x →
      ∃ m d, ms[i]? = some m ∧ ds[i]? = some d ∧ x = f (m, d) := by
  intro ms
  induction ms with
  | nil => intro ds i x h; simp at h
  | cons m ms ih =>
    intro ds i x h
    cases ds with
    | nil => simp at h
    | cons d ds =>
      cases i with
      | zero =>
        simp only [List.zip_cons_cons, List.map_cons, List.getElem?_cons_zero,
          Option.some.injEq] at h
        exact ⟨m, d, by simp, by simp, h.symm⟩
      | succ i =>
        simp only [List.zip_cons_cons, List.map_cons, List.getElem?_cons_succ] at h ⊢
        exact ih ds i x h

/- ===== claim theorems ===== -/

/-- Claim C8: the skills-extraction helper splits on the separators
vertical bar, comma and semicolon, trims surrounding whitespace from each
token, lower-cases it, drops tokens that are empty after trimming,
preserves order, and returns [] for a missing (NaN) input.  Stated as:
the source function (re.split on runs of separators) agrees with the
specification-side function (split at every separator occurrence, trim,
lower-case, drop empties, in order), and the missing input gives []. -/
theorem extract_skills_correct :
    extract_skills none = [] ∧
    ∀ s : String, extract_skills (some s) = extract_skills_spec (some s) := by
  refine ⟨rfl, fun s => ?_⟩
  simp only [extract_skills, extract_skills_spec,
    splitRuns_filter_eq_splitSingle_filter]

/-- Claim C2 (amended): every result of search_relevant_jobs has
relevance_score equal to 1 minus the distance the index reported for that
entry; that score lies in [0,1] exactly when the reported distance lies
in [0,1] (the code does not clamp). -/
theorem search_relevance_score_eq (queryFn : String → Nat → QueryResponse)
    (q : String) (n i : Nat) (j : RelevantJob) (d : Rat)
    (hj : (search_relevant_jobs queryFn q n)[i]? = some j)
    (hd : (queryFn q n).distances[i]? = some d) :
    j.relevance_score = 1 - d ∧
      ((0 ≤ j.relevance_score ∧ j.relevance_score ≤ 1) ↔ (0 ≤ d ∧ d ≤ 1)) := by
  simp only [search_relevant_jobs] at hj
  obtain ⟨m, d', hm, hd', rfl⟩ := zip_map_getElem? mkRelevantJob _ _ _ _ hj
  rw [hd] at hd'
  injection hd' with e
  subst e
  refine ⟨rfl, ?_⟩
  simp only [mkRelevantJob]
  constructor
  · rintro ⟨h1, h2⟩
    exact ⟨by linarith, by linarith⟩
  · rintro ⟨h1, h2⟩
    exact ⟨by linarith, by linarith⟩


/-- Claim C2, witness. -/
theorem search_relevance_score_eq_witness :
    (search_relevant_jobs
        (fun _ _ => { metadatas := [{ job_title := "T", skills := "S", experience := "E",
                                      role_category := "R", industry := "I", salary := "P" }],
                      distances := [(0 : Rat)] }) "query" 5)[0]? =
      some { job_title := "T", skills := "S", experience := "E", role_category := "R",
             industry := "I", salary := "P", relevance_score := 1 - (0 : Rat) } ∧
    ((fun (_ : String) (_ : Nat) =>
        { metadatas := [{ job_title := "T", skills := "S", experience := "E",
                          role_category := "R", industry := "I", salary := "P" }],
          distances := [(0 : Rat)] } : String → Nat → QueryResponse) "query" 5).distances[0]? =
      some (0 : Rat) ∧
    ({ job_title := "T", skills := "S", experience := "E", role_category := "R",
       industry := "I", salary := "P", relevance_score := 1 - (0 : Rat) } : RelevantJob).relevance_score
        = 1 - (0 : Rat) :=
  ⟨rfl, rfl,
    (search_relevance_score_eq
      (fun _ _ => { metadatas := [{ job_title := "T", skills := "S", experience := "E",
                                    role_category := "R", industry := "I", salary := "P" }],
                    distances := [(0 : Rat)] })
      "query" 5 0
      { job_title := "T", skills := "S", experience := "E", role_category := "R",
        industry := "I", salary := "P", relevance_score := 1 - (0 : Rat) }
      (0 : Rat) rfl rfl).1⟩

/-- Claim C2, counterexample: with a reported distance of 2 the score is
1 - 2 = -1, outside [0,1], so the claim that the score always lies in
[0,1] is false. -/
theorem search_relevance_score_cex :
    search_relevant_jobs
        (fun _ _ => { metadatas := [{ job_title := "T", skills := "S", experience := "E",
                                      role_category := "R", industry := "I", salary := "P" }],
                      distances := [(2 : Rat)] }) "software engineer" 10 =
      [{ job_title := "T", skills := "S", experience := "E", role_category := "R",
         industry := "I", salary := "P", relevance_score := 1 - (2 : Rat) }] ∧
    ¬ (0 ≤ 1 - (2 : Rat) ∧ 1 - (2 : Rat) ≤ 1) := by
  refine ⟨rfl, ?_⟩
  norm_num

/-- Claim C3: when the index reports distances in ascending order, the
relevance_score of the results of search_relevant_jobs is non-increasing
with rank. -/
theorem search_scores_nonincreasing (queryFn : String → Nat → QueryResponse)
    (q : String) (n : Nat)
    (hsorted : (queryFn q n).distances.Pairwise (· ≤ ·))
    (i k : Nat) (hik : i < k) (a b : RelevantJob)
    (ha : (search_relevant_jobs queryFn q n)[i]? = some a)
    (hb : (search_relevant_jobs queryFn q n)[k]? = some b) :
    b.relevance_score ≤ a.relevance_score := by
  simp only [search_relevant_jobs] at ha hb
  obtain ⟨ma, da, hma, hda, rfl⟩ := zip_map_getElem? mkRelevantJob _ _ _ _ ha
  obtain ⟨mb, db, hmb, hdb, rfl⟩ := zip_map_getElem? mkRelevantJob _ _ _ _ hb
  obtain ⟨hia, hga⟩ := List.getElem?_eq_some.mp hda
  obtain ⟨hib, hgb⟩ := List.getElem?_eq_some.mp hdb
  have hle : da ≤ db := by
    have := List.pairwise_iff_getElem.mp hsorted i k hia hib hik
    rwa [hga, hgb] at this
  simp only [mkRelevantJob]
  linarith

/-- Claim C3, witness. -/
theorem search_scores_nonincreasing_witness :
    ((fun (_ : String) (_ : Nat) =>
        { metadatas := [{ job_title := "A", skills := "S", experience := "E",
                          role_category := "R", industry := "I", salary := "P" },
                        { job_title := "B", skills := "S", experience := "E",
                          role_category := "R", industry := "I", salary := "P" }],
          distances := [(0 : Rat), (2 : Rat)] } : String → Nat → QueryResponse)
      "q" 2).distances.Pairwise (· ≤ ·) ∧
    (0 : Nat) < 1 ∧
    ({ job_title := "B", skills := "S", experience := "E", role_category := "R",
       industry := "I", salary := "P", relevance_score := 1 - (2 : Rat) } : RelevantJob).relevance_score ≤
      ({ job_title := "A", skills := "S", experience := "E", role_category := "R",
         industry := "I", salary := "P", relevance_score := 1 - (0 : Rat) } : RelevantJob).relevance_score :=
  ⟨by simp, by decide,
    search_scores_nonincreasing
      (fun _ _ => { metadatas := [{ job_title := "A", skills := "S", experience := "E",
                                    role_category := "R", industry := "I", salary := "P" },
                                  { job_title := "B", skills := "S", experience := "E",
                                    role_category := "R", industry := "I", salary := "P" }],
                    distances := [(0 : Rat), (2 : Rat)] })
      "q" 2 (by simp) 0 1 (by decide)
      { job_title := "A", skills := "S", experience := "E", role_category := "R",
        industry := "I", salary := "P", relevance_score := 1 - (0 : Rat) }
      { job_title := "B", skills := "S", experience := "E", role_category := "R",
        industry := "I", salary := "P", relevance_score := 1 - (2 : Rat) }
      rfl rfl⟩

/-- Claim C6 (amended): search_relevant_jobs passes its query string to
the index verbatim, performing no trimming: its output depends only on
the index response to the untrimmed query. -/
theorem search_query_passed_verbatim (f g : String → Nat → QueryResponse)
    (q : String) (n : Nat) (h : f q n = g q n) :
    search_relevant_jobs f q n = search_relevant_jobs g q n := by
  simp only [search_relevant_jobs, h]

/-- Claim C6, witness. -/
theorem search_query_passed_verbatim_witness :
    ((fun (_ : String) (_ : Nat) =>
        ({ metadatas := [], distances := [] } : QueryResponse)) "q" 3 =
      (fun (s : String) (_ : Nat) =>
        if s = "zz" then ({ metadatas := [{ job_title := "Z", skills := "S", experience := "E",
                                            role_category := "R", industry := "I", salary := "P" }],
                            distances := [] } : QueryResponse)
        else { metadatas := [], distances := [] }) "q" 3) ∧
    search_relevant_jobs
        (fun (_ : String) (_ : Nat) =>
          ({ metadatas := [], distances := [] } : QueryResponse)) "q" 3 =
      search_relevant_jobs
        (fun (s : String) (_ : Nat) =>
          if s = "zz" then ({ metadatas := [{ job_title := "Z", skills := "S", experience := "E",
                                              role_category := "R", industry := "I", salary := "P" }],
                              distances := [] } : QueryResponse)
          else { metadatas := [], distances := [] }) "q" 3 :=
  ⟨by simp, search_query_passed_verbatim _ _ "q" 3 (by simp)⟩

/-- Claim C6, counterexample: the untrimmed query string and its trimmed
form can issue different index queries and produce different results, so
search_relevant_jobs does not trim its query before delegating. -/
theorem search_does_not_trim_cex :
    pyStripStr " x " = "x" ∧
    ∃ f : String → Nat → QueryResponse,
      search_relevant_jobs f " x " 1 ≠ search_relevant_jobs f (pyStripStr " x ") 1 := by
  refine ⟨rfl, ⟨fun s _ =>
    if s = "x" then { metadatas := [{ job_title := "HIT", skills := "S", experience := "E",
                                      role_category := "R", industry := "I", salary := "P" }],
                      distances := [(0 : Rat)] }
    else { metadatas := [{ job_title := "MISS", skills := "S", experience := "E",
                           role_category := "R", industry := "I", salary := "P" }],
           distances := [(0 : Rat)] }, ?_⟩⟩
  rw [show pyStripStr " x " = "x" from rfl]
  intro h
  simp [search_relevant_jobs, mkRelevantJob] at h

/-- Claim C1 (amended): a failure of the generation service inside
get_career_insights propagates as a raised exception; no dict is
returned.  In particular, with the service unreachable (every call
failing with the same error) the function result is that error. -/
theorem insights_gen_failure_raises (gen : GenService)
    (queryFn : String → Nat → QueryResponse)
    (resume_text : String) (user_query : Option String) (e : String)
    (h : ∀ p, gen p = Except.error e) :
    get_career_insights (some gen) queryFn resume_text user_query =
      Except.error (PyErr.genError e) := by
  simp only [get_career_insights, h]

/-- Claim C1, witness. -/
theorem insights_gen_failure_raises_witness :
    (∀ p : String,
      ((fun _ => Except.error "service unreachable") : GenService) p =
        Except.error "service unreachable") ∧
    get_career_insights (some ((fun _ => Except.error "service unreachable") : GenService))
        (fun _ _ => { metadatas := [], distances := [] }) "resume text" (some "query") =
      Except.error (PyErr.genError "service unreachable") :=
  ⟨fun _ => rfl,
    insights_gen_failure_raises ((fun _ => Except.error "service unreachable") : GenService)
      (fun _ _ => { metadatas := [], distances := [] }) "resume text" (some "query")
      "service unreachable" (fun _ => rfl)⟩

/-- Claim C1, counterexample: when the generation call fails,
get_career_insights does not return a result dict at all (no insights
field, no relevant_jobs field): the error propagates. -/
theorem insights_gen_failure_cex :
    get_career_insights (some ((fun _ => Except.error "service unreachable") : GenService))
        (fun _ _ => { metadatas := [], distances := [] }) "resume text" (some "query") =
      Except.error (PyErr.genError "service unreachable") := rfl

/-- Claim C10: with no API key the constructor still succeeds and sets
the generation client to None, and both get_career_insights and
chat_with_career_advisor then raise by dereferencing that None client
(an AttributeError), never returning a degraded descriptive string. -/
theorem no_key_constructor_and_raises (mkClient : String → GenService)
    (queryFn : String → Nat → QueryResponse) (resume_text : String)
    (user_query : Option String) (chat_history : List ChatMsg) (user_message : String) :
    init_client_groq mkClient none = none ∧
    get_career_insights none queryFn resume_text user_query =
      Except.error PyErr.attributeError ∧
    chat_with_career_advisor none queryFn resume_text chat_history user_message =
      Except.error PyErr.attributeError :=
  ⟨rfl, rfl, rfl⟩

/-- Claim C7: the conversation transcript of chat_with_career_advisor is
built from exactly the last 5 entries of chat_history in order (all
entries when there are fewer than 5), and entries before the last 5 do
not affect the transcript or the overall call. -/
theorem chat_transcript_last_five :
    (∀ pre suf : List ChatMsg, suf.length = 5 →
      conversation_of (pre ++ suf) = conversation_of suf) ∧
    (∀ h : List ChatMsg, h.length ≤ 5 → takeLast 5 h = h) ∧
    (∀ (client : Option GenService) (queryFn : String → Nat → QueryResponse)
       (resume_text : String) (pre suf : List ChatMsg) (user_message : String),
      suf.length = 5 →
      chat_with_career_advisor client queryFn resume_text (pre ++ suf) user_message =
        chat_with_career_advisor client queryFn resume_text suf user_message) := by
  have hTL : ∀ pre suf : List ChatMsg, suf.length = 5 → takeLast 5 (pre ++ suf) = suf := by
    intro pre suf h5
    simp only [takeLast, List.length_append, h5, Nat.add_sub_cancel, List.drop_left]
  have hTL2 : ∀ suf : List ChatMsg, suf.length = 5 → takeLast 5 suf = suf := by
    intro suf h5
    simp only [takeLast, h5, Nat.sub_self, List.drop_zero]
  have hconv : ∀ pre suf : List ChatMsg, suf.length = 5 →
      conversation_of (pre ++ suf) = conversation_of suf := by
    intro pre suf h5
    simp only [conversation_of, hTL pre suf h5, hTL2 suf h5]
  refine ⟨hconv, ?_, ?_⟩
  · intro h hle
    simp only [takeLast, Nat.sub_eq_zero_of_le hle, List.drop_zero]
  · intro client queryFn resume_text pre suf user_message h5
    simp only [chat_with_career_advisor, hconv pre suf h5]

/-- Claim C7, witness. -/
theorem chat_transcript_last_five_witness :
    ([⟨"user", "m1"⟩, ⟨"assistant", "m2"⟩, ⟨"user", "m3"⟩,
      ⟨"assistant", "m4"⟩, ⟨"user", "m5"⟩] : List ChatMsg).length = 5 ∧
    conversation_of (([⟨"user", "m0"⟩] : List ChatMsg) ++
        [⟨"user", "m1"⟩, ⟨"assistant", "m2"⟩, ⟨"user", "m3"⟩,
         ⟨"assistant", "m4"⟩, ⟨"user", "m5"⟩]) =
      conversation_of [⟨"user", "m1"⟩, ⟨"assistant", "m2"⟩, ⟨"user", "m3"⟩,
        ⟨"assistant", "m4"⟩, ⟨"user", "m5"⟩] :=
  ⟨rfl, chat_transcript_last_five.1 [⟨"user", "m0"⟩]
    [⟨"user", "m1"⟩, ⟨"assistant", "m2"⟩, ⟨"user", "m3"⟩,
     ⟨"assistant", "m4"⟩, ⟨"user", "m5"⟩] rfl⟩

/-- Claim C4: initialization is idempotent per collection name: when the
job_database collection already exists it is reused unchanged with no
re-insertion, and after a successful first build a second run with the
same sources leaves the store state exactly as after the first (same
size, no duplicated entries). -/
theorem init_vector_store_idempotent (st : StoreState) (sources : List Source) :
    (hasCollection st "job_database" = true → init_vector_store st sources = (st, none)) ∧
    ((init_vector_store st sources).2 = none →
      init_vector_store (init_vector_store st sources).1 sources =
        ((init_vector_store st sources).1, none)) := by
  constructor
  · intro h
    simp [init_vector_store, h]
  · intro h
    by_cases hc : hasCollection st "job_database" = true
    · simp [init_vector_store, hc]
    · rw [show init_vector_store st sources = create_vector_store st sources by
        simp [init_vector_store, hc]] at h ⊢
      cases hload : load_multiple_files sources with
      | error e =>
        rw [show create_vector_store st sources = (st, some e) by
          simp [create_vector_store, hload]] at h
        simp at h
      | ok rows =>
        rw [show create_vector_store st sources =
            ({ collections := st.collections ++
                [{ name := "job_database", entries := buildEntries rows }] }, none) by
          simp [create_vector_store, hload]]
        simp [init_vector_store, hasCollection]

/-- Claim C4, witness. -/
theorem init_vector_store_idempotent_witness :
    (init_vector_store { collections := [] }
        [{ path := "data/jobs.csv", utf8Read := ReadOutcome.ok [], latin1Read := ReadOutcome.ok [] }]).2
      = none ∧
    init_vector_store
        (init_vector_store { collections := [] }
          [{ path := "data/jobs.csv", utf8Read := ReadOutcome.ok [], latin1Read := ReadOutcome.ok [] }]).1
        [{ path := "data/jobs.csv", utf8Read := ReadOutcome.ok [], latin1Read := ReadOutcome.ok [] }] =
      ((init_vector_store { collections := [] }
          [{ path := "data/jobs.csv", utf8Read := ReadOutcome.ok [], latin1Read := ReadOutcome.ok [] }]).1,
        none) :=
  ⟨by decide,
    (init_vector_store_idempotent { collections := [] }
      [{ path := "data/jobs.csv", utf8Read := ReadOutcome.ok [], latin1Read := ReadOutcome.ok [] }]).2
      (by decide)⟩

/-- Claim C5 (amended): build raises the ValueError exactly when no
configured source can be loaded, and then the store state is unchanged
(no collection is created); a dataset that loads successfully but
contains zero rows does not raise and creates an empty collection. -/
theorem create_store_error_iff_no_loadable (st : StoreState) (sources : List Source)
    (h : ∀ s ∈ sources, loadOne s = none) :
    create_vector_store st sources = (st, some "No valid CSV files could be loaded") := by
  have hnil : sources.filterMap loadOne = [] := List.filterMap_eq_nil_iff.mpr h
  simp [create_vector_store, load_multiple_files, hnil]

/-- Claim C5, witness. -/
theorem create_store_error_iff_no_loadable_witness :
    (∀ s ∈ ([{ path := "data/jobs.txt", utf8Read := ReadOutcome.ok [],
               latin1Read := ReadOutcome.ok [] }] : List Source), loadOne s = none) ∧
    create_vector_store { collections := [] }
        [{ path := "data/jobs.txt", utf8Read := ReadOutcome.ok [], latin1Read := ReadOutcome.ok [] }] =
      ({ collections := [] }, some "No valid CSV files could be loaded") :=
  ⟨by decide,
    create_store_error_iff_no_loadable { collections := [] }
      [{ path := "data/jobs.txt", utf8Read := ReadOutcome.ok [], latin1Read := ReadOutcome.ok [] }]
      (by decide)⟩

/-- Claim C5, counterexample: a source that loads successfully with zero
rows gives an empty loaded dataset, yet the build raises nothing and a
job_database collection is created, contradicting the claim that an
empty loaded dataset raises and creates no collection. -/
theorem create_store_empty_dataset_cex :
    load_multiple_files
        [{ path := "data/jobs.csv", utf8Read := ReadOutcome.ok [], latin1Read := ReadOutcome.ok [] }] =
      Except.ok [] ∧
    (create_vector_store { collections := [] }
        [{ path := "data/jobs.csv", utf8Read := ReadOutcome.ok [], latin1Read := ReadOutcome.ok [] }]).2
      = none ∧
    hasCollection
        (create_vector_store { collections := [] }
          [{ path := "data/jobs.csv", utf8Read := ReadOutcome.ok [], latin1Read := ReadOutcome.ok [] }]).1
        "job_database" = true :=
  ⟨rfl, rfl, rfl⟩

/-- Claim C9: the Dataset Loader raises exactly when no configured
source can be loaded; a source whose utf-8 read fails with a decoding
error is loaded through the latin-1 fallback; and every loaded source
contributes its rows to the combined table. -/
theorem load_multiple_files_contract (sources : List Source) :
    ((load_multiple_files sources = Except.error "No valid CSV files could be loaded") ↔
      ∀ s ∈ sources, loadOne s = none) ∧
    (∀ s : Source, endsWithPy s.path ".csv" = true →
      s.utf8Read = ReadOutcome.unicodeErr →
      ∀ rows, s.latin1Read = ReadOutcome.ok rows →
        loadOne s = some (rows.map (tagSource s.path))) ∧
    (∀ all, load_multiple_files sources = Except.ok all →
      ∀ s ∈ sources, ∀ rows, loadOne s = some rows → ∀ r ∈ rows, r ∈ all) := by
  refine ⟨?_, ?_, ?_⟩
  · constructor
    · intro h
      by_cases hE : (sources.filterMap loadOne).isEmpty
      · exact List.filterMap_eq_nil_iff.mp (List.isEmpty_iff.mp hE)
      · simp [load_multiple_files, hE] at h
    · intro h
      have hnil : sources.filterMap loadOne = [] := List.filterMap_eq_nil_iff.mpr h
      simp [load_multiple_files, hnil]
  · intro s h1 h2 rows h3
    simp [loadOne, h1, h2, h3]
  · intro all hall s hs rows hrow r hr
    by_cases hE : (sources.filterMap loadOne).isEmpty
    · simp [load_multiple_files, hE] at hall
    · simp only [load_multiple_files, hE, Bool.false_eq_true, if_false,
        Except.ok.injEq] at hall
      rw [← hall]
      exact List.mem_flatten.mpr ⟨rows, List.mem_filterMap.mpr ⟨s, hs, hrow⟩, hr⟩

/-- Claim C9, witness. -/
theorem load_multiple_files_contract_witness :
    endsWithPy "data/x.csv" ".csv" = true ∧
    loadOne { path := "data/x.csv", utf8Read := ReadOutcome.unicodeErr,
              latin1Read := ReadOutcome.ok [emptyRow] } =
      some ([emptyRow].map (tagSource "data/x.csv")) :=
  ⟨by decide,
    (load_multiple_files_contract []).2.1
      { path := "data/x.csv", utf8Read := ReadOutcome.unicodeErr,
        latin1Read := ReadOutcome.ok [emptyRow] }
      (by decide) rfl [emptyRow] rfl⟩
